import Mathlib

/-!
Verification of `kp::OpMult` (kompute).

A shallow embedding of `src/include/kompute/operations/OpMult.hpp`: the
constructor `OpMult::OpMult`, which validates the number of memory objects,
turns the embedded SPIR-V byte image into a `std::vector<uint32_t>` and asks
the algorithm to rebuild itself, and the destructor `OpMult::~OpMult`.

The effects of the C++ code are made explicit: a `World` is threaded through
every operation; it holds the state owned by the external collaborators and
the trace of the effects observed so far (debug log lines and calls to
`Algorithm::rebuild`).
-/

namespace kp

set_option linter.dupNamespace false

/-! ## Machine-level data -/

/-- Byte order of the host: it decides how `std::memcpy` into the storage of a
`std::vector<uint32_t>` groups bytes into words. -/
inductive Endian where
  | little
  | big
  deriving DecidableEq, Repr

/-- Value of `sizeof(uint32_t)`. -/
def sizeofUInt32 : Nat := 4

/-- The `uint32_t` whose object representation is the four bytes
`b0 b1 b2 b3` (in address order). -/
def loadWord : Endian → Nat → Nat → Nat → Nat → Nat
  | .little, b0, b1, b2, b3 => b0 + 256 * b1 + 65536 * b2 + 16777216 * b3
  | .big, b0, b1, b2, b3 => b3 + 256 * b2 + 65536 * b1 + 16777216 * b0

/-- Object representation (four bytes, in address order) of a `uint32_t`. -/
def storeWord : Endian → Nat → List Nat
  | .little, w => [w % 256, w / 256 % 256, w / 65536 % 256, w / 16777216 % 256]
  | .big, w => [w / 16777216 % 256, w / 65536 % 256, w / 256 % 256, w % 256]

/-- Bytes of the contiguous storage behind a `std::vector<uint32_t>`
(what `spirv.data()` points to). -/
def storageBytes (e : Endian) (v : List Nat) : List Nat :=
  v.flatMap (storeWord e)

/-- The `uint32_t` elements read back from the bytes of the storage of a vector. -/
def wordsOfBytes (e : Endian) : List Nat → List Nat
  | b0 :: b1 :: b2 :: b3 :: rest => loadWord e b0 b1 b2 b3 :: wordsOfBytes e rest
  | _ => []

/-- Model of `std::memcpy(dst, src, count)`: the first `count` bytes of the
destination are replaced by the first `count` bytes of the source.  Reading
past the source or writing past the destination is undefined behaviour
(`none`). -/
def memcpy (dst src : List Nat) (count : Nat) : Option (List Nat) :=
  if count ≤ dst.length ∧ count ≤ src.length then
    some (src.take count ++ dst.drop count)
  else
    none

/-- A byte sequence is well formed when every element is an `unsigned char`. -/
def ValidBytes (bs : List Nat) : Prop := ∀ b ∈ bs, b < 256

instance ValidBytes.decidable (bs : List Nat) : Decidable (ValidBytes bs) := by
  unfold ValidBytes
  infer_instance

/-! ## Build configuration -/

/-- What is fixed when the translation unit is compiled: whether `NDEBUG` is
defined (then `assert` expands to nothing), the byte order of the target, and
the array `SHADEROPMULT_COMP_SPV_DATA` of the generated header
`ShaderOpMult.h`, which is not part of the sources at hand and therefore a
parameter. -/
structure Build where
  NDEBUG : Bool
  endian : Endian
  SHADEROPMULT_COMP_SPV_DATA : List Nat

/-- Modelled from the spec: the kernel image is "a byte buffer with a known byte
length", so `SHADEROPMULT_COMP_SPV_SIZE` of the missing generated header is the
number of bytes of `SHADEROPMULT_COMP_SPV_DATA`. -/
def Build.SHADEROPMULT_COMP_SPV_SIZE (b : Build) : Nat :=
  b.SHADEROPMULT_COMP_SPV_DATA.length

/-! ## Effects -/

/-- Observable effects, in the order they happen.  `A` is the type of algorithm
handles (`std::shared_ptr<Algorithm>`), `M` the type of memory-object handles
(`std::shared_ptr<Memory>`). -/
inductive Event (A M : Type) where
  | logDebug (msg : String)
  | rebuild (algorithm : A) (memObjects : List M) (spirv : List Nat)

/-- State threaded through the operations: `device` is everything the external
collaborators own (pipelines, descriptor sets, tensor contents), `trace` the
effects observed so far, oldest first. -/
structure World (σ A M : Type) where
  device : σ
  trace : List (Event A M)

/-- The external collaborator `Algorithm::rebuild`, whose code is not part of
the sources at hand: given the algorithm, the memory objects and the SPIR-V
words it updates the device state and either returns or throws an
exception `ε`. -/
structure Collaborators (σ ε A M : Type) where
  rebuild : A → List M → List Nat → σ → Except ε Unit × σ

/-- Effect of `KP_LOG_DEBUG(msg)`: a line is handed to the logger. -/
def World.logDebug {σ A M : Type} (w : World σ A M) (msg : String) : World σ A M :=
  { w with trace := w.trace ++ [Event.logDebug msg] }

/-- The calls to `Algorithm::rebuild` found in a trace, oldest first, each with
its arguments. -/
def rebuildCalls {A M : Type} : List (Event A M) → List (A × List M × List Nat)
  | [] => []
  | Event.logDebug _ :: es => rebuildCalls es
  | Event.rebuild a ms ws :: es => (a, ms, ws) :: rebuildCalls es

/-! ## The operation -/

/-- Modelled from the spec: the base class `OpAlgoDispatch` is not part of the
sources at hand.  It is the "generic base that records the actual dispatch
command" and references the bound DispatchTarget: its only state relevant here
is the algorithm handle it was constructed with. -/
structure OpAlgoDispatch (A : Type) where
  mAlgorithm : A

/-- An `OpMult` object: it declares no data member of its own, so it is its
`OpAlgoDispatch` base sub-object. -/
structure OpMult (A : Type) where
  toOpAlgoDispatch : OpAlgoDispatch A

/-- Modelled from the spec: the destructor of the missing base class
`OpAlgoDispatch` releases only the bookkeeping of the operation ("its inherited
dispatch-recording state"); it makes no call on the algorithm or on the memory
objects. -/
def OpAlgoDispatch.destroy {σ A M : Type} (_self : OpAlgoDispatch A)
    (w : World σ A M) : World σ A M :=
  w

/-- How a constructor call ends. -/
inductive Outcome (ε A : Type) where
  /-- The constructor returned: the object exists. -/
  | constructed (op : OpMult A)
  /-- The constructor threw `std::runtime_error(what)`. -/
  | runtime_error (what : String)
  /-- An exception thrown by `Algorithm::rebuild` left the constructor. -/
  | rebuildError (e : ε)
  /-- The `assert` failed: the process is aborted. -/
  | assertionFailure
  /-- The program ran into undefined behaviour (a copy past the end of the
  storage of the vector). -/
  | undefinedBehaviour

/-- The literal at the start of the message of the arity error. -/
def arityMessageHead : String := "Kompute OpMult expected 3 mem objects but got "

/-- The vector handed to `rebuild`, as lines 47 and 48 of the header compute it:
`std::vector<uint32_t> spirv(SIZE / sizeof(uint32_t))` holds `SIZE / 4` zero
words, then `std::memcpy(spirv.data(), DATA, SIZE)` overwrites its storage. -/
def OpMult.spirv (b : Build) : Option (List Nat) :=
  let spirv := List.replicate (b.SHADEROPMULT_COMP_SPV_SIZE / sizeofUInt32) 0
  match memcpy (storageBytes b.endian spirv) b.SHADEROPMULT_COMP_SPV_DATA
      b.SHADEROPMULT_COMP_SPV_SIZE with
  | none => none
  | some bytes => some (wordsOfBytes b.endian bytes)

/-- The constructor `OpMult::OpMult(memObjects, algorithm)`.  The base
sub-object is constructed first; when the body throws, the base sub-object is
destroyed while the exception leaves the constructor. -/
def OpMult.OpMult {σ ε A M : Type} (b : Build) (c : Collaborators σ ε A M)
    (memObjects : List M) (algorithm : A) (w : World σ A M) :
    Outcome ε A × World σ A M :=
  -- `: OpAlgoDispatch(algorithm)`
  let base : OpAlgoDispatch A := ⟨algorithm⟩
  let w := w.logDebug "Kompute OpMult constructor with params"
  if memObjects.length ≠ 3 then
    (Outcome.runtime_error (arityMessageHead ++ toString memObjects.length),
      base.destroy w)
  else if b.NDEBUG = false ∧ b.SHADEROPMULT_COMP_SPV_SIZE % sizeofUInt32 ≠ 0 then
    (Outcome.assertionFailure, w)
  else
    match OpMult.spirv b with
    | none => (Outcome.undefinedBehaviour, w)
    | some spirv =>
      let w := { w with trace := w.trace ++ [Event.rebuild algorithm memObjects spirv] }
      match c.rebuild algorithm memObjects spirv w.device with
      | (Except.ok _, s) => (Outcome.constructed ⟨base⟩, { w with device := s })
      | (Except.error e, s) => (Outcome.rebuildError e, base.destroy { w with device := s })

/-- The destructor `OpMult::~OpMult()`: its body logs one line, then the base
sub-object is destroyed. -/
def OpMult.destroy {σ A M : Type} (self : kp.OpMult A) (w : World σ A M) :
    World σ A M :=
  self.toOpAlgoDispatch.destroy (w.logDebug "Kompute OpMult destructor started")


/-- The sequence of constructions a caller performs on one algorithm, one
`OpMult` per list of memory objects, in order.  An exception is caught by the
caller, who goes on with the next construction; a failed assertion or undefined
behaviour ends the run.  The result lists how each construction ended. -/
def constructAll {σ ε A M : Type} (b : Build) (c : Collaborators σ ε A M)
    (algorithm : A) : List (List M) → World σ A M → List (Outcome ε A) × World σ A M
  | [], w => ([], w)
  | memObjects :: rest, w =>
    match OpMult.OpMult b c memObjects algorithm w with
    | (Outcome.assertionFailure, w1) => ([Outcome.assertionFailure], w1)
    | (Outcome.undefinedBehaviour, w1) => ([Outcome.undefinedBehaviour], w1)
    | (o, w1) =>
      let r := constructAll b c algorithm rest w1
      (o :: r.1, r.2)

/-- Whether a construction ended with an object. -/
def Outcome.isConstructed {ε A : Type} : Outcome ε A → Bool
  | Outcome.constructed _ => true
  | _ => false

/-! ## Reading the arity error -/

/-- Value of a decimal digit character. -/
def digitValue (ch : Char) : Nat := ch.toNat - 48

/-- Value of a string of decimal digits, most significant first. -/
def decimalValue (cs : List Char) : Nat :=
  cs.foldl (fun acc ch => 10 * acc + digitValue ch) 0

/-- The count a caller reads off the message of the arity error: the decimal
number that follows the fixed literal. -/
def actualCount (what : String) : Nat :=
  decimalValue (what.data.drop arityMessageHead.length)

/-! ## A concrete setting

A small device used to run the constructor on concrete inputs: its state is the
number of pipelines built so far, memory objects and algorithms are numbered
handles, and a binding whose first memory object is the null handle `0` is
rejected. -/

/-- Collaborators of the concrete setting. -/
def sampleCollaborators : Collaborators Nat String Nat Nat :=
  ⟨fun _ memObjects _ built =>
    if memObjects.head? = some 0 then (Except.error "null memory object", built)
    else (Except.ok (), built + 1)⟩

/-- A debug build for a little-endian host with an image of two words. -/
def sampleBuild : Build := ⟨false, Endian.little, [3, 2, 35, 7, 0, 0, 1, 0]⟩

/-- A release build (`NDEBUG` defined) whose image has five bytes. -/
def releaseBuildOddImage : Build := ⟨true, Endian.little, [3, 2, 35, 7, 0]⟩

/-- A debug build whose image has five bytes. -/
def debugBuildOddImage : Build := ⟨false, Endian.big, [3, 2, 35, 7, 0]⟩

/-- The device before anything was built, with an empty trace. -/
def sampleWorld : World Nat Nat Nat := ⟨0, []⟩

/-! ## Lemmas on the machine-level data -/

theorem toDigitsCore_append (fuel : Nat) : ∀ (n : Nat) (ds : List Char),
    Nat.toDigitsCore 10 fuel n ds = Nat.toDigitsCore 10 fuel n [] ++ ds := by
  induction fuel with
  | zero => intro n ds; simp [Nat.toDigitsCore]
  | succ k ih =>
    intro n ds
    simp only [Nat.toDigitsCore]
    by_cases h : n / 10 = 0
    · simp [h]
    · simp only [h, if_false]
      rw [ih (n / 10) (Nat.digitChar (n % 10) :: ds), ih (n / 10) [Nat.digitChar (n % 10)]]
      simp

theorem digitValue_digitChar (d : Nat) (h : d < 10) : digitValue (Nat.digitChar d) = d := by
  interval_cases d <;> rfl

theorem decimalValue_snoc (cs : List Char) (ch : Char) :
    decimalValue (cs ++ [ch]) = 10 * decimalValue cs + digitValue ch := by
  simp [decimalValue, List.foldl_append]

theorem decimalValue_toDigitsCore (fuel : Nat) : ∀ n : Nat, n < fuel →
    decimalValue (Nat.toDigitsCore 10 fuel n []) = n := by
  induction fuel with
  | zero => intro n h; omega
  | succ k ih =>
    intro n hn
    simp only [Nat.toDigitsCore]
    by_cases h : n / 10 = 0
    · simp only [h, if_true]
      have : decimalValue [Nat.digitChar (n % 10)] = digitValue (Nat.digitChar (n % 10)) := by
        simp [decimalValue]
      rw [this, digitValue_digitChar _ (Nat.mod_lt _ (by decide))]
      omega
    · simp only [h, if_false]
      rw [toDigitsCore_append, decimalValue_snoc, ih (n / 10) (by omega),
        digitValue_digitChar _ (Nat.mod_lt _ (by decide))]
      omega

theorem isDigit_digitChar (d : Nat) (h : d < 10) : (Nat.digitChar d).isDigit = true := by
  interval_cases d <;> rfl

theorem isDigit_toDigitsCore (fuel : Nat) : ∀ (n : Nat) (ds : List Char),
    (∀ ch ∈ ds, ch.isDigit = true) →
      ∀ ch ∈ Nat.toDigitsCore 10 fuel n ds, ch.isDigit = true := by
  induction fuel with
  | zero => intro n ds hds; simpa [Nat.toDigitsCore] using hds
  | succ k ih =>
    intro n ds hds
    have hcons : ∀ ch ∈ Nat.digitChar (n % 10) :: ds, ch.isDigit = true := by
      intro ch hch
      rcases List.mem_cons.mp hch with rfl | hmem
      · exact isDigit_digitChar _ (Nat.mod_lt _ (by decide))
      · exact hds ch hmem
    simp only [Nat.toDigitsCore]
    by_cases h : n / 10 = 0
    · simpa only [h, if_true] using hcons
    · simpa only [h, if_false] using ih (n / 10) _ hcons

theorem isDigit_toString (n : Nat) : ∀ ch ∈ (toString n).data, ch.isDigit = true := by
  show ∀ ch ∈ (Nat.repr n).data, ch.isDigit = true
  simp only [Nat.repr, Nat.toDigits, List.asString]
  exact isDigit_toDigitsCore (n + 1) n [] (by simp)

theorem decimalValue_toString (n : Nat) : decimalValue (toString n).data = n := by
  show decimalValue (Nat.repr n).data = n
  simp only [Nat.repr, Nat.toDigits, List.asString]
  exact decimalValue_toDigitsCore (n + 1) n (Nat.lt_succ_self n)

theorem actualCount_message (n : Nat) :
    actualCount (arityMessageHead ++ toString n) = n := by
  unfold actualCount
  have h : arityMessageHead.length = arityMessageHead.data.length := rfl
  rw [String.data_append, h, List.drop_left]
  exact decimalValue_toString n

theorem storeWord_loadWord (e : Endian) (b0 b1 b2 b3 : Nat)
    (h0 : b0 < 256) (h1 : b1 < 256) (h2 : b2 < 256) (h3 : b3 < 256) :
    storeWord e (loadWord e b0 b1 b2 b3) = [b0, b1, b2, b3] := by
  cases e <;> simp only [loadWord, storeWord, List.cons.injEq, and_true] <;>
    refine ⟨?_, ?_, ?_, ?_⟩ <;> omega

theorem loadWord_lt (e : Endian) (b0 b1 b2 b3 : Nat)
    (h0 : b0 < 256) (h1 : b1 < 256) (h2 : b2 < 256) (h3 : b3 < 256) :
    loadWord e b0 b1 b2 b3 < 2 ^ 32 := by
  cases e <;> simp only [loadWord] <;> omega

theorem storageBytes_length (e : Endian) (v : List Nat) :
    (storageBytes e v).length = 4 * v.length := by
  induction v with
  | nil => rfl
  | cons w ws ih =>
    have hw : (storeWord e w).length = 4 := by cases e <;> rfl
    simp only [storageBytes, List.flatMap_cons, List.length_append, List.length_cons] at ih ⊢
    omega

theorem wordsOfBytes_length (e : Endian) : ∀ bs : List Nat,
    (wordsOfBytes e bs).length = bs.length / 4
  | [] => by simp [wordsOfBytes]
  | [_] => by simp [wordsOfBytes]
  | [_, _] => by simp [wordsOfBytes]
  | [_, _, _] => by simp [wordsOfBytes]
  | _ :: _ :: _ :: _ :: rest => by
    simp only [wordsOfBytes, List.length_cons, wordsOfBytes_length e rest]
    omega

theorem storageBytes_wordsOfBytes (e : Endian) : ∀ bs : List Nat,
    ValidBytes bs → bs.length % 4 = 0 → storageBytes e (wordsOfBytes e bs) = bs
  | [], _, _ => by simp [wordsOfBytes, storageBytes]
  | [_], _, h => by simp at h
  | [_, _], _, h => by simp at h
  | [_, _, _], _, h => by simp at h
  | b0 :: b1 :: b2 :: b3 :: rest, hv, h => by
    have hrest : ValidBytes rest := fun b hb => hv b (by simp [hb])
    have hlen : rest.length % 4 = 0 := by
      simp only [List.length_cons] at h
      omega
    have ih := storageBytes_wordsOfBytes e rest hrest hlen
    simp only [storageBytes, wordsOfBytes, List.flatMap_cons] at ih ⊢
    rw [ih, storeWord_loadWord e b0 b1 b2 b3 (hv b0 (by simp)) (hv b1 (by simp))
      (hv b2 (by simp)) (hv b3 (by simp))]
    rfl

theorem wordsOfBytes_lt (e : Endian) : ∀ bs : List Nat,
    ValidBytes bs → ∀ w ∈ wordsOfBytes e bs, w < 2 ^ 32
  | [], _, w, hw => by simp [wordsOfBytes] at hw
  | [_], _, w, hw => by simp [wordsOfBytes] at hw
  | [_, _], _, w, hw => by simp [wordsOfBytes] at hw
  | [_, _, _], _, w, hw => by simp [wordsOfBytes] at hw
  | b0 :: b1 :: b2 :: b3 :: rest, hv, w, hw => by
    simp only [wordsOfBytes, List.mem_cons] at hw
    rcases hw with rfl | hw
    · exact loadWord_lt e b0 b1 b2 b3 (hv b0 (by simp)) (hv b1 (by simp))
        (hv b2 (by simp)) (hv b3 (by simp))
    · exact wordsOfBytes_lt e rest (fun b hb => hv b (by simp [hb])) w hw

/-- With an image of whole words the copy stays inside the vector and leaves
its storage equal to the image. -/
theorem memcpy_of_aligned (b : Build)
    (h : b.SHADEROPMULT_COMP_SPV_SIZE % sizeofUInt32 = 0) :
    memcpy (storageBytes b.endian
        (List.replicate (b.SHADEROPMULT_COMP_SPV_SIZE / sizeofUInt32) 0))
      b.SHADEROPMULT_COMP_SPV_DATA b.SHADEROPMULT_COMP_SPV_SIZE
      = some b.SHADEROPMULT_COMP_SPV_DATA := by
  simp only [Build.SHADEROPMULT_COMP_SPV_SIZE, sizeofUInt32] at h
  have hlen : (storageBytes b.endian
      (List.replicate (b.SHADEROPMULT_COMP_SPV_DATA.length / 4) 0)).length
      = b.SHADEROPMULT_COMP_SPV_DATA.length := by
    rw [storageBytes_length, List.length_replicate]
    omega
  simp only [memcpy, Build.SHADEROPMULT_COMP_SPV_SIZE, sizeofUInt32, hlen,
    le_refl, and_self, if_true, List.take_length]
  rw [List.drop_of_length_le (le_of_eq hlen), List.append_nil]

/-- With an image whose size is a multiple of the word size the copy fills the
vector exactly: every word comes from four consecutive image bytes. -/
theorem spirv_of_aligned (b : Build)
    (h : b.SHADEROPMULT_COMP_SPV_SIZE % sizeofUInt32 = 0) :
    OpMult.spirv b = some (wordsOfBytes b.endian b.SHADEROPMULT_COMP_SPV_DATA) := by
  simp only [OpMult.spirv, memcpy_of_aligned b h]

/-- With an image whose size is not a multiple of the word size the copy runs
past the end of the vector. -/
theorem spirv_of_misaligned (b : Build)
    (h : b.SHADEROPMULT_COMP_SPV_SIZE % sizeofUInt32 ≠ 0) :
    OpMult.spirv b = none := by
  simp only [Build.SHADEROPMULT_COMP_SPV_SIZE, sizeofUInt32] at h
  have hlen : (storageBytes b.endian
      (List.replicate (b.SHADEROPMULT_COMP_SPV_DATA.length / 4) 0)).length
      = 4 * (b.SHADEROPMULT_COMP_SPV_DATA.length / 4) := by
    rw [storageBytes_length, List.length_replicate]
  have hlt : ¬ b.SHADEROPMULT_COMP_SPV_DATA.length
      ≤ 4 * (b.SHADEROPMULT_COMP_SPV_DATA.length / 4) := by omega
  simp [OpMult.spirv, memcpy, Build.SHADEROPMULT_COMP_SPV_SIZE, sizeofUInt32, hlen, hlt]

/-! ## Lemmas on the constructor -/

@[simp] theorem OpAlgoDispatch.destroy_eq {σ A M : Type} (self : OpAlgoDispatch A)
    (w : World σ A M) : self.destroy w = w := rfl

theorem rebuildCalls_append {A M : Type} (es fs : List (Event A M)) :
    rebuildCalls (es ++ fs) = rebuildCalls es ++ rebuildCalls fs := by
  induction es with
  | nil => rfl
  | cons ev es ih => cases ev <;> simp [rebuildCalls, ih]

/-- A wrong number of memory objects: the constructor logs and throws. -/
theorem ctor_of_wrong_arity {σ ε A M : Type} (b : Build) (c : Collaborators σ ε A M)
    (memObjects : List M) (algorithm : A) (w : World σ A M)
    (h : memObjects.length ≠ 3) :
    OpMult.OpMult b c memObjects algorithm w
      = (Outcome.runtime_error (arityMessageHead ++ toString memObjects.length),
          w.logDebug "Kompute OpMult constructor with params") := by
  simp only [OpMult.OpMult, h, ne_eq, not_false_eq_true, if_true, OpAlgoDispatch.destroy_eq]

/-- Three memory objects and an image of whole words: the constructor logs,
calls `rebuild` and ends the way `rebuild` does. -/
theorem ctor_of_three {σ ε A M : Type} (b : Build) (c : Collaborators σ ε A M)
    (memObjects : List M) (algorithm : A) (w : World σ A M)
    (h3 : memObjects.length = 3)
    (hsize : b.SHADEROPMULT_COMP_SPV_SIZE % sizeofUInt32 = 0) :
    OpMult.OpMult b c memObjects algorithm w
      = ((match (c.rebuild algorithm memObjects
              (wordsOfBytes b.endian b.SHADEROPMULT_COMP_SPV_DATA) w.device).1 with
          | Except.ok _ => Outcome.constructed ⟨⟨algorithm⟩⟩
          | Except.error e => Outcome.rebuildError e),
         { device := (c.rebuild algorithm memObjects
              (wordsOfBytes b.endian b.SHADEROPMULT_COMP_SPV_DATA) w.device).2,
           trace := w.trace ++ [Event.logDebug "Kompute OpMult constructor with params",
              Event.rebuild algorithm memObjects
                (wordsOfBytes b.endian b.SHADEROPMULT_COMP_SPV_DATA)] }) := by
  simp only [OpMult.OpMult, h3, hsize, spirv_of_aligned b hsize, World.logDebug, ne_eq,
    not_true_eq_false, and_false, if_false, List.append_assoc, List.singleton_append]
  rcases hr : c.rebuild algorithm memObjects
      (wordsOfBytes b.endian b.SHADEROPMULT_COMP_SPV_DATA) w.device with ⟨r, s⟩
  cases r <;> rfl

/-- A constructor that returned was given three memory objects and an image of
whole words. -/
theorem ctor_constructed_inv {σ ε A M : Type} (b : Build) (c : Collaborators σ ε A M)
    (memObjects : List M) (algorithm : A) (w : World σ A M)
    (h : (OpMult.OpMult b c memObjects algorithm w).1.isConstructed = true) :
    memObjects.length = 3 ∧ b.SHADEROPMULT_COMP_SPV_SIZE % sizeofUInt32 = 0 := by
  by_cases h3 : memObjects.length = 3
  · refine ⟨h3, ?_⟩
    by_contra hsize
    have hnone := spirv_of_misaligned b hsize
    cases hn : b.NDEBUG <;>
      simp [OpMult.OpMult, h3, hsize, hnone, hn, Outcome.isConstructed] at h
  · rw [ctor_of_wrong_arity b c memObjects algorithm w h3] at h
    simp [Outcome.isConstructed] at h

/-- The calls to `rebuild` after a construction with three memory objects and an
image of whole words: one more than before, whatever `rebuild` answers. -/
theorem ctor_calls_of_three {σ ε A M : Type} (b : Build) (c : Collaborators σ ε A M)
    (memObjects : List M) (algorithm : A) (w : World σ A M)
    (h3 : memObjects.length = 3)
    (hsize : b.SHADEROPMULT_COMP_SPV_SIZE % sizeofUInt32 = 0) :
    rebuildCalls (OpMult.OpMult b c memObjects algorithm w).2.trace
      = rebuildCalls w.trace
          ++ [(algorithm, memObjects,
                wordsOfBytes b.endian b.SHADEROPMULT_COMP_SPV_DATA)] := by
  rw [ctor_of_three b c memObjects algorithm w h3 hsize]
  simp [rebuildCalls_append, rebuildCalls]

/-- The constructor reads the world only through the state of the device: what
it does on `w` is what it does on the same device with an empty trace, after the
trace of `w`. -/
theorem ctor_frame {σ ε A M : Type} (b : Build) (c : Collaborators σ ε A M)
    (memObjects : List M) (algorithm : A) (w : World σ A M) :
    OpMult.OpMult b c memObjects algorithm w
      = ((OpMult.OpMult b c memObjects algorithm ⟨w.device, []⟩).1,
          { device := (OpMult.OpMult b c memObjects algorithm ⟨w.device, []⟩).2.device,
            trace := w.trace
              ++ (OpMult.OpMult b c memObjects algorithm ⟨w.device, []⟩).2.trace }) := by
  by_cases h3 : memObjects.length = 3
  · by_cases hassert : b.NDEBUG = false ∧ b.SHADEROPMULT_COMP_SPV_SIZE % sizeofUInt32 ≠ 0
    · simp [OpMult.OpMult, h3, hassert, World.logDebug]
    · cases hs : OpMult.spirv b with
      | none => simp [OpMult.OpMult, h3, hassert, hs, World.logDebug]
      | some spirv =>
        rcases hr : c.rebuild algorithm memObjects spirv w.device with ⟨r, s⟩
        cases r <;> simp [OpMult.OpMult, h3, hassert, hs, hr, World.logDebug]
  · simp [OpMult.OpMult, h3, World.logDebug]

/-! ## The claims -/

/-- C1: for every list of memory objects whose length `n` is not 3 (the empty
list included), every algorithm and every state of the world, the constructor
throws `std::runtime_error` with the message
"Kompute OpMult expected 3 mem objects but got " followed by `n` in decimal (a
string of decimal digits whose value is `n`), and the count read back from the
message of the error is `n`. -/
theorem C1_arity_error_reports_actual_count {σ ε A M : Type} (b : Build)
    (c : Collaborators σ ε A M) (memObjects : List M) (algorithm : A)
    (w : World σ A M) (h : memObjects.length ≠ 3) :
    (OpMult.OpMult b c memObjects algorithm w).1
        = Outcome.runtime_error
            ("Kompute OpMult expected 3 mem objects but got " ++ toString memObjects.length)
      ∧ (∀ ch ∈ (toString memObjects.length).data, ch.isDigit = true)
      ∧ decimalValue (toString memObjects.length).data = memObjects.length
      ∧ ∀ what : String,
          (OpMult.OpMult b c memObjects algorithm w).1 = Outcome.runtime_error what →
            actualCount what = memObjects.length := by
  have hctor := ctor_of_wrong_arity b c memObjects algorithm w h
  refine ⟨by rw [hctor]; rfl, isDigit_toString _, decimalValue_toString _, ?_⟩
  intro what hwhat
  rw [hctor] at hwhat
  have hmsg : arityMessageHead ++ toString memObjects.length = what := by
    simpa using hwhat
  rw [← hmsg]
  exact actualCount_message _

/-- Witness of C1: two memory objects are reported as "got 2", five as "got 5"
and none as "got 0". -/
theorem C1_arity_error_reports_actual_count_witness :
    ([10, 20] : List Nat).length ≠ 3
      ∧ (OpMult.OpMult sampleBuild sampleCollaborators [10, 20] 1 sampleWorld).1
          = Outcome.runtime_error "Kompute OpMult expected 3 mem objects but got 2"
      ∧ (OpMult.OpMult sampleBuild sampleCollaborators [10, 20, 30, 40, 50] 1 sampleWorld).1
          = Outcome.runtime_error "Kompute OpMult expected 3 mem objects but got 5"
      ∧ (OpMult.OpMult sampleBuild sampleCollaborators [] 1 sampleWorld).1
          = Outcome.runtime_error "Kompute OpMult expected 3 mem objects but got 0"
      ∧ actualCount "Kompute OpMult expected 3 mem objects but got 2" = 2 :=
  ⟨by decide,
    (C1_arity_error_reports_actual_count sampleBuild sampleCollaborators [10, 20] 1
      sampleWorld (by decide)).1,
    (C1_arity_error_reports_actual_count sampleBuild sampleCollaborators
      [10, 20, 30, 40, 50] 1 sampleWorld (by decide)).1,
    (C1_arity_error_reports_actual_count sampleBuild sampleCollaborators [] 1
      sampleWorld (by decide)).1,
    (C1_arity_error_reports_actual_count sampleBuild sampleCollaborators [10, 20] 1
      sampleWorld (by decide)).2.2.2 _
      (C1_arity_error_reports_actual_count sampleBuild sampleCollaborators [10, 20] 1
        sampleWorld (by decide)).1⟩

/-- C2: for every list of exactly three memory objects, with an image whose
byte length is a multiple of the word size and a `rebuild` that returns, the
constructor returns an object bound to the algorithm, and during the
construction `rebuild` is called exactly once, on that algorithm, with the very
list it was given (same elements, same order). -/
theorem C2_three_objects_rebuild_once {σ ε A M : Type} (b : Build)
    (c : Collaborators σ ε A M) (memObjects : List M) (algorithm : A)
    (w : World σ A M) (h3 : memObjects.length = 3)
    (hsize : b.SHADEROPMULT_COMP_SPV_SIZE % sizeofUInt32 = 0)
    (hok : (c.rebuild algorithm memObjects
        (wordsOfBytes b.endian b.SHADEROPMULT_COMP_SPV_DATA) w.device).1 = Except.ok ()) :
    OpMult.OpMult b c memObjects algorithm w
        = (Outcome.constructed ⟨⟨algorithm⟩⟩,
            { device := (c.rebuild algorithm memObjects
                (wordsOfBytes b.endian b.SHADEROPMULT_COMP_SPV_DATA) w.device).2,
              trace := w.trace ++ [Event.logDebug "Kompute OpMult constructor with params",
                Event.rebuild algorithm memObjects
                  (wordsOfBytes b.endian b.SHADEROPMULT_COMP_SPV_DATA)] })
      ∧ rebuildCalls (OpMult.OpMult b c memObjects algorithm w).2.trace
        = rebuildCalls w.trace
            ++ [(algorithm, memObjects, wordsOfBytes b.endian b.SHADEROPMULT_COMP_SPV_DATA)] := by
  have hctor := ctor_of_three b c memObjects algorithm w h3 hsize
  rw [hok] at hctor
  refine ⟨hctor, ?_⟩
  rw [hctor]
  simp [rebuildCalls_append, rebuildCalls]

/-- Witness of C2: three memory objects on the sample device. -/
theorem C2_three_objects_rebuild_once_witness :
    ([10, 20, 30] : List Nat).length = 3
      ∧ sampleBuild.SHADEROPMULT_COMP_SPV_SIZE % sizeofUInt32 = 0
      ∧ (sampleCollaborators.rebuild 1 [10, 20, 30] [119734787, 65536] 0).1 = Except.ok ()
      ∧ (OpMult.OpMult sampleBuild sampleCollaborators [10, 20, 30] 1 sampleWorld
            = (Outcome.constructed ⟨⟨1⟩⟩,
                { device := 1,
                  trace := [Event.logDebug "Kompute OpMult constructor with params",
                    Event.rebuild 1 [10, 20, 30] [119734787, 65536]] })
          ∧ rebuildCalls
              (OpMult.OpMult sampleBuild sampleCollaborators [10, 20, 30] 1 sampleWorld).2.trace
            = [(1, [10, 20, 30], [119734787, 65536])]) :=
  ⟨by decide, by decide, rfl,
    C2_three_objects_rebuild_once sampleBuild sampleCollaborators [10, 20, 30] 1
      sampleWorld (by decide) (by decide) rfl⟩

/-- C3: for every list of memory objects whose length is not 3, the failed
construction makes no call to `rebuild`: the constructor only logs its debug
line before it throws, so the calls to `rebuild` seen so far and the state of
the device are the ones from before the construction. -/
theorem C3_wrong_arity_no_rebuild {σ ε A M : Type} (b : Build)
    (c : Collaborators σ ε A M) (memObjects : List M) (algorithm : A)
    (w : World σ A M) (h : memObjects.length ≠ 3) :
    (OpMult.OpMult b c memObjects algorithm w).2.device = w.device
      ∧ (OpMult.OpMult b c memObjects algorithm w).2.trace
          = w.trace ++ [Event.logDebug "Kompute OpMult constructor with params"]
      ∧ rebuildCalls (OpMult.OpMult b c memObjects algorithm w).2.trace
          = rebuildCalls w.trace := by
  rw [ctor_of_wrong_arity b c memObjects algorithm w h]
  simp [World.logDebug, rebuildCalls_append, rebuildCalls]

/-- Witness of C3: two memory objects, no call to `rebuild`. -/
theorem C3_wrong_arity_no_rebuild_witness :
    ([10, 20] : List Nat).length ≠ 3
      ∧ ((OpMult.OpMult sampleBuild sampleCollaborators [10, 20] 1 sampleWorld).2.device = 0
          ∧ (OpMult.OpMult sampleBuild sampleCollaborators [10, 20] 1 sampleWorld).2.trace
              = [Event.logDebug "Kompute OpMult constructor with params"]
          ∧ rebuildCalls
              (OpMult.OpMult sampleBuild sampleCollaborators [10, 20] 1 sampleWorld).2.trace
              = []) :=
  ⟨by decide,
    C3_wrong_arity_no_rebuild sampleBuild sampleCollaborators [10, 20] 1 sampleWorld
      (by decide)⟩

/-- C4, as stated, fails: in a build with `NDEBUG` defined the `assert` expands
to nothing, so with an image of five bytes and three memory objects the
constructor does not end in the failed assertion; it goes on to copy five bytes
into a vector of one word. -/
theorem C4_release_build_counterexample :
    releaseBuildOddImage.SHADEROPMULT_COMP_SPV_SIZE % sizeofUInt32 ≠ 0
      ∧ ([10, 20, 30] : List Nat).length = 3
      ∧ (OpMult.OpMult releaseBuildOddImage sampleCollaborators [10, 20, 30] 1 sampleWorld).1
          ≠ Outcome.assertionFailure
      ∧ (OpMult.OpMult releaseBuildOddImage sampleCollaborators [10, 20, 30] 1 sampleWorld).1
          = Outcome.undefinedBehaviour := by
  refine ⟨by decide, by decide, ?_, rfl⟩
  intro h
  cases h

/-- C4, amended: in a build where assertions are enabled (`NDEBUG` not defined),
for every image whose byte length is not a multiple of the word size and every
list of three memory objects, the constructor ends in the failed assertion
before `rebuild` is reached: no call to `rebuild` is made, no instruction words
are handed over, and the state of the device is the one from before. -/
theorem C4_assertion_before_rebuild {σ ε A M : Type} (b : Build)
    (c : Collaborators σ ε A M) (memObjects : List M) (algorithm : A)
    (w : World σ A M) (hdebug : b.NDEBUG = false)
    (hsize : b.SHADEROPMULT_COMP_SPV_SIZE % sizeofUInt32 ≠ 0)
    (h3 : memObjects.length = 3) :
    OpMult.OpMult b c memObjects algorithm w
        = (Outcome.assertionFailure,
            { device := w.device,
              trace := w.trace ++ [Event.logDebug "Kompute OpMult constructor with params"] })
      ∧ rebuildCalls (OpMult.OpMult b c memObjects algorithm w).2.trace
          = rebuildCalls w.trace := by
  have hctor : OpMult.OpMult b c memObjects algorithm w
      = (Outcome.assertionFailure,
          { device := w.device,
            trace := w.trace ++ [Event.logDebug "Kompute OpMult constructor with params"] }) := by
    simp [OpMult.OpMult, h3, hdebug, hsize, World.logDebug]
  refine ⟨hctor, ?_⟩
  rw [hctor]
  simp [rebuildCalls_append, rebuildCalls]

/-- Witness of C4 (amended): a debug build with an image of five bytes. -/
theorem C4_assertion_before_rebuild_witness :
    debugBuildOddImage.NDEBUG = false
      ∧ debugBuildOddImage.SHADEROPMULT_COMP_SPV_SIZE % sizeofUInt32 ≠ 0
      ∧ ([10, 20, 30] : List Nat).length = 3
      ∧ (OpMult.OpMult debugBuildOddImage sampleCollaborators [10, 20, 30] 1 sampleWorld
            = (Outcome.assertionFailure,
                { device := 0,
                  trace := [Event.logDebug "Kompute OpMult constructor with params"] })
          ∧ rebuildCalls
              (OpMult.OpMult debugBuildOddImage sampleCollaborators [10, 20, 30] 1
                sampleWorld).2.trace
            = []) :=
  ⟨rfl, by decide, by decide,
    C4_assertion_before_rebuild debugBuildOddImage sampleCollaborators [10, 20, 30] 1
      sampleWorld rfl (by decide) (by decide)⟩

/-- C5: for every image of `L` bytes with `L % sizeof(uint32_t) = 0`, the
vector handed to `rebuild` has exactly `L / sizeof(uint32_t)` words; the copy
fills it exactly, since `sizeof(uint32_t) * (L / sizeof(uint32_t)) = L`: it
stays inside the vector, whose storage then holds the image bytes in order, and
every word comes from four image bytes; writing the words back as bytes in the
same byte order gives the image, byte for byte. -/
theorem C5_instruction_words_exact {σ ε A M : Type} (b : Build)
    (c : Collaborators σ ε A M) (memObjects : List M) (algorithm : A)
    (w : World σ A M) (hbytes : ValidBytes b.SHADEROPMULT_COMP_SPV_DATA)
    (hsize : b.SHADEROPMULT_COMP_SPV_SIZE % sizeofUInt32 = 0)
    (h3 : memObjects.length = 3) :
    ∃ spirv : List Nat,
      OpMult.spirv b = some spirv
        ∧ rebuildCalls (OpMult.OpMult b c memObjects algorithm w).2.trace
            = rebuildCalls w.trace ++ [(algorithm, memObjects, spirv)]
        ∧ spirv.length = b.SHADEROPMULT_COMP_SPV_SIZE / sizeofUInt32
        ∧ sizeofUInt32 * (b.SHADEROPMULT_COMP_SPV_SIZE / sizeofUInt32)
            = b.SHADEROPMULT_COMP_SPV_SIZE
        ∧ (storageBytes b.endian
              (List.replicate (b.SHADEROPMULT_COMP_SPV_SIZE / sizeofUInt32) 0)).length
            = b.SHADEROPMULT_COMP_SPV_SIZE
        ∧ memcpy (storageBytes b.endian
              (List.replicate (b.SHADEROPMULT_COMP_SPV_SIZE / sizeofUInt32) 0))
            b.SHADEROPMULT_COMP_SPV_DATA b.SHADEROPMULT_COMP_SPV_SIZE
            = some b.SHADEROPMULT_COMP_SPV_DATA
        ∧ spirv = wordsOfBytes b.endian b.SHADEROPMULT_COMP_SPV_DATA
        ∧ storageBytes b.endian spirv = b.SHADEROPMULT_COMP_SPV_DATA
        ∧ ∀ x ∈ spirv, x < 2 ^ 32 := by
  have hmod : b.SHADEROPMULT_COMP_SPV_DATA.length % 4 = 0 := hsize
  refine ⟨wordsOfBytes b.endian b.SHADEROPMULT_COMP_SPV_DATA, spirv_of_aligned b hsize,
    ctor_calls_of_three b c memObjects algorithm w h3 hsize, ?_, ?_, ?_,
    memcpy_of_aligned b hsize, rfl,
    storageBytes_wordsOfBytes b.endian _ hbytes hmod,
    wordsOfBytes_lt b.endian _ hbytes⟩
  · rw [wordsOfBytes_length]
    rfl
  · simp only [Build.SHADEROPMULT_COMP_SPV_SIZE, sizeofUInt32]
    omega
  · rw [storageBytes_length, List.length_replicate]
    simp only [Build.SHADEROPMULT_COMP_SPV_SIZE, sizeofUInt32]
    omega

/-- Witness of C5: the image of eight bytes of the sample build gives the two
words `0x07230203` and `0x00010000`. -/
theorem C5_instruction_words_exact_witness :
    ValidBytes sampleBuild.SHADEROPMULT_COMP_SPV_DATA
      ∧ sampleBuild.SHADEROPMULT_COMP_SPV_SIZE % sizeofUInt32 = 0
      ∧ OpMult.spirv sampleBuild = some [119734787, 65536]
      ∧ ∃ spirv : List Nat,
          OpMult.spirv sampleBuild = some spirv
            ∧ rebuildCalls
                (OpMult.OpMult sampleBuild sampleCollaborators [10, 20, 30] 1
                  sampleWorld).2.trace
                = rebuildCalls sampleWorld.trace ++ [(1, [10, 20, 30], spirv)]
            ∧ spirv.length = sampleBuild.SHADEROPMULT_COMP_SPV_SIZE / sizeofUInt32
            ∧ sizeofUInt32 * (sampleBuild.SHADEROPMULT_COMP_SPV_SIZE / sizeofUInt32)
                = sampleBuild.SHADEROPMULT_COMP_SPV_SIZE
            ∧ (storageBytes sampleBuild.endian
                  (List.replicate (sampleBuild.SHADEROPMULT_COMP_SPV_SIZE / sizeofUInt32)
                    0)).length
                = sampleBuild.SHADEROPMULT_COMP_SPV_SIZE
            ∧ memcpy (storageBytes sampleBuild.endian
                  (List.replicate (sampleBuild.SHADEROPMULT_COMP_SPV_SIZE / sizeofUInt32) 0))
                sampleBuild.SHADEROPMULT_COMP_SPV_DATA sampleBuild.SHADEROPMULT_COMP_SPV_SIZE
                = some sampleBuild.SHADEROPMULT_COMP_SPV_DATA
            ∧ spirv = wordsOfBytes sampleBuild.endian sampleBuild.SHADEROPMULT_COMP_SPV_DATA
            ∧ storageBytes sampleBuild.endian spirv = sampleBuild.SHADEROPMULT_COMP_SPV_DATA
            ∧ ∀ x ∈ spirv, x < 2 ^ 32 :=
  ⟨by decide, by decide, by decide,
    C5_instruction_words_exact sampleBuild sampleCollaborators [10, 20, 30] 1 sampleWorld
      (by decide) (by decide) (by decide)⟩

/-- C6: for every list of three memory objects and every image of whole words,
if `rebuild` throws `e` then the exception that leaves the constructor is that
same `e`: `rebuild` was called once, no object exists, and the device is in the
state `rebuild` left it in. -/
theorem C6_rebuild_error_propagates {σ ε A M : Type} (b : Build)
    (c : Collaborators σ ε A M) (memObjects : List M) (algorithm : A)
    (w : World σ A M) (e : ε) (h3 : memObjects.length = 3)
    (hsize : b.SHADEROPMULT_COMP_SPV_SIZE % sizeofUInt32 = 0)
    (herr : (c.rebuild algorithm memObjects
        (wordsOfBytes b.endian b.SHADEROPMULT_COMP_SPV_DATA) w.device).1 = Except.error e) :
    OpMult.OpMult b c memObjects algorithm w
        = (Outcome.rebuildError e,
            { device := (c.rebuild algorithm memObjects
                (wordsOfBytes b.endian b.SHADEROPMULT_COMP_SPV_DATA) w.device).2,
              trace := w.trace ++ [Event.logDebug "Kompute OpMult constructor with params",
                Event.rebuild algorithm memObjects
                  (wordsOfBytes b.endian b.SHADEROPMULT_COMP_SPV_DATA)] })
      ∧ rebuildCalls (OpMult.OpMult b c memObjects algorithm w).2.trace
        = rebuildCalls w.trace
            ++ [(algorithm, memObjects, wordsOfBytes b.endian b.SHADEROPMULT_COMP_SPV_DATA)] := by
  have hctor := ctor_of_three b c memObjects algorithm w h3 hsize
  rw [herr] at hctor
  exact ⟨hctor, ctor_calls_of_three b c memObjects algorithm w h3 hsize⟩

/-- Witness of C6: the sample device rejects a null first memory object. -/
theorem C6_rebuild_error_propagates_witness :
    ([0, 20, 30] : List Nat).length = 3
      ∧ sampleBuild.SHADEROPMULT_COMP_SPV_SIZE % sizeofUInt32 = 0
      ∧ (sampleCollaborators.rebuild 1 [0, 20, 30] [119734787, 65536] 0).1
          = Except.error "null memory object"
      ∧ (OpMult.OpMult sampleBuild sampleCollaborators [0, 20, 30] 1 sampleWorld
            = (Outcome.rebuildError "null memory object",
                { device := 0,
                  trace := [Event.logDebug "Kompute OpMult constructor with params",
                    Event.rebuild 1 [0, 20, 30] [119734787, 65536]] })
          ∧ rebuildCalls
              (OpMult.OpMult sampleBuild sampleCollaborators [0, 20, 30] 1 sampleWorld).2.trace
            = [(1, [0, 20, 30], [119734787, 65536])]) :=
  ⟨by decide, by decide, rfl,
    C6_rebuild_error_propagates sampleBuild sampleCollaborators [0, 20, 30] 1 sampleWorld
      "null memory object" (by decide) (by decide) rfl⟩

/-- C7: when the constructions performed one after the other on one algorithm
all return an object, whatever the state of the device and the trace before
them, every list had three memory objects and the algorithm received exactly
one call to `rebuild` per construction, in the order of the constructions, each
with the list of that construction: no call is skipped or merged. -/
theorem C7_each_construction_rebuilds {σ ε A M : Type} (b : Build)
    (c : Collaborators σ ε A M) (algorithm : A) (lists : List (List M))
    (w : World σ A M)
    (hall : ∀ o ∈ (constructAll b c algorithm lists w).1, o.isConstructed = true) :
    (constructAll b c algorithm lists w).1.length = lists.length
      ∧ (∀ memObjects ∈ lists, memObjects.length = 3)
      ∧ rebuildCalls (constructAll b c algorithm lists w).2.trace
          = rebuildCalls w.trace
              ++ lists.map (fun memObjects =>
                  (algorithm, memObjects,
                    wordsOfBytes b.endian b.SHADEROPMULT_COMP_SPV_DATA)) := by
  induction lists generalizing w with
  | nil => simp [constructAll]
  | cons memObjects rest ih =>
    have hinv := ctor_constructed_inv b c memObjects algorithm w
    have hcalls := ctor_calls_of_three b c memObjects algorithm w
    rcases hr : OpMult.OpMult b c memObjects algorithm w with ⟨o, w1⟩
    rw [hr] at hinv hcalls
    cases o with
    | constructed op =>
      simp only [constructAll, hr, List.mem_cons, forall_eq_or_imp] at hall ⊢
      obtain ⟨h3, hsize⟩ := hinv rfl
      obtain ⟨hlen, hthree, htrace⟩ := ih w1 hall.2
      refine ⟨by rw [List.length_cons, List.length_cons, hlen], ⟨h3, hthree⟩, ?_⟩
      rw [htrace, hcalls h3 hsize]
      simp
    | runtime_error what =>
      have := hall (Outcome.runtime_error what) (by simp [constructAll, hr])
      simp [Outcome.isConstructed] at this
    | rebuildError e =>
      have := hall (Outcome.rebuildError e) (by simp [constructAll, hr])
      simp [Outcome.isConstructed] at this
    | assertionFailure =>
      have := hall Outcome.assertionFailure (by simp [constructAll, hr])
      simp [Outcome.isConstructed] at this
    | undefinedBehaviour =>
      have := hall Outcome.undefinedBehaviour (by simp [constructAll, hr])
      simp [Outcome.isConstructed] at this

/-- Witness of C7: two constructions on algorithm `1` of a device that already
built four pipelines. -/
theorem C7_each_construction_rebuilds_witness :
    (constructAll sampleBuild sampleCollaborators 1 [[10, 20, 30], [40, 50, 60]]
        ⟨4, [Event.rebuild 1 [7, 8, 9] [119734787, 65536]]⟩).1
        = [Outcome.constructed ⟨⟨1⟩⟩, Outcome.constructed ⟨⟨1⟩⟩]
      ∧ (constructAll sampleBuild sampleCollaborators 1 [[10, 20, 30], [40, 50, 60]]
          ⟨4, [Event.rebuild 1 [7, 8, 9] [119734787, 65536]]⟩).2.device = 6
      ∧ rebuildCalls
          (constructAll sampleBuild sampleCollaborators 1 [[10, 20, 30], [40, 50, 60]]
            ⟨4, [Event.rebuild 1 [7, 8, 9] [119734787, 65536]]⟩).2.trace
          = [(1, [7, 8, 9], [119734787, 65536]), (1, [10, 20, 30], [119734787, 65536]),
              (1, [40, 50, 60], [119734787, 65536])] :=
  ⟨rfl, rfl,
    (C7_each_construction_rebuilds sampleBuild sampleCollaborators 1
      [[10, 20, 30], [40, 50, 60]] ⟨4, [Event.rebuild 1 [7, 8, 9] [119734787, 65536]]⟩
      (by
        intro o ho
        have hlist : (constructAll sampleBuild sampleCollaborators 1
            [[10, 20, 30], [40, 50, 60]]
            ⟨4, [Event.rebuild 1 [7, 8, 9] [119734787, 65536]]⟩).1
            = [Outcome.constructed ⟨⟨1⟩⟩, Outcome.constructed ⟨⟨1⟩⟩] := rfl
        rw [hlist] at ho
        simp only [List.mem_cons, List.mem_singleton, List.not_mem_nil, or_false,
          or_self] at ho
        rw [ho]
        rfl)).2.2⟩

/-- C8: destroying an `OpMult` only logs the debug line of the destructor: the
state of the device (pipelines, tensors and their contents) is the one from
before, no call to `rebuild` is made, and a construction that follows the
destruction ends the same way, leaves the device in the same state and makes the
same calls to `rebuild` as it would without the destruction. -/
theorem C8_destructor_frame {σ ε A M : Type} (op : OpMult A) (w : World σ A M) :
    (OpMult.destroy op w).device = w.device
      ∧ (OpMult.destroy op w).trace
          = w.trace ++ [Event.logDebug "Kompute OpMult destructor started"]
      ∧ rebuildCalls (OpMult.destroy op w).trace = rebuildCalls w.trace
      ∧ ∀ (b : Build) (c : Collaborators σ ε A M) (memObjects : List M) (algorithm : A),
          (OpMult.OpMult b c memObjects algorithm (OpMult.destroy op w)).1
              = (OpMult.OpMult b c memObjects algorithm w).1
            ∧ (OpMult.OpMult b c memObjects algorithm (OpMult.destroy op w)).2.device
              = (OpMult.OpMult b c memObjects algorithm w).2.device
            ∧ rebuildCalls
                (OpMult.OpMult b c memObjects algorithm (OpMult.destroy op w)).2.trace
              = rebuildCalls (OpMult.OpMult b c memObjects algorithm w).2.trace := by
  have hdev : (OpMult.destroy op w).device = w.device := rfl
  have htrace : (OpMult.destroy op w).trace
      = w.trace ++ [Event.logDebug "Kompute OpMult destructor started"] := rfl
  have hcalls : rebuildCalls (OpMult.destroy op w).trace = rebuildCalls w.trace := by
    rw [htrace, rebuildCalls_append]
    simp [rebuildCalls]
  refine ⟨hdev, htrace, hcalls, ?_⟩
  intro b c memObjects algorithm
  rw [ctor_frame b c memObjects algorithm (OpMult.destroy op w),
    ctor_frame b c memObjects algorithm w, hdev]
  refine ⟨rfl, rfl, ?_⟩
  simp only [rebuildCalls_append, hcalls]

/-- C10: the check of the number of memory objects comes before the check of the
image: for every list whose length is not 3 and every build, an image whose
length is not a multiple of the word size included, the constructor ends in the
arity error and not in the failed assertion, and any other construction with a
list of the same length ends in the same error, whatever the elements, the
algorithm, the collaborators, the build and the state of the world. -/
theorem C10_arity_check_first {σ ε A M : Type} (b : Build)
    (c : Collaborators σ ε A M) (memObjects : List M) (algorithm : A)
    (w : World σ A M) (h : memObjects.length ≠ 3) :
    (OpMult.OpMult b c memObjects algorithm w).1
        = Outcome.runtime_error
            ("Kompute OpMult expected 3 mem objects but got " ++ toString memObjects.length)
      ∧ (OpMult.OpMult b c memObjects algorithm w).1 ≠ Outcome.assertionFailure
      ∧ ∀ (b2 : Build) (c2 : Collaborators σ ε A M) (memObjects2 : List M)
          (algorithm2 : A) (w2 : World σ A M),
          memObjects2.length = memObjects.length →
            (OpMult.OpMult b2 c2 memObjects2 algorithm2 w2).1
              = (OpMult.OpMult b c memObjects algorithm w).1 := by
  have hctor := ctor_of_wrong_arity b c memObjects algorithm w h
  refine ⟨by rw [hctor]; rfl, ?_, ?_⟩
  · rw [hctor]
    intro hne
    cases hne
  · intro b2 c2 memObjects2 algorithm2 w2 hlen
    rw [hctor, ctor_of_wrong_arity b2 c2 memObjects2 algorithm2 w2 (by rw [hlen]; exact h),
      hlen]

/-- Witness of C10: two memory objects and an image of five bytes, in a debug
build. -/
theorem C10_arity_check_first_witness :
    ([10, 20] : List Nat).length ≠ 3
      ∧ debugBuildOddImage.SHADEROPMULT_COMP_SPV_SIZE % sizeofUInt32 ≠ 0
      ∧ (OpMult.OpMult debugBuildOddImage sampleCollaborators [10, 20] 1 sampleWorld).1
          = Outcome.runtime_error "Kompute OpMult expected 3 mem objects but got 2"
      ∧ (OpMult.OpMult debugBuildOddImage sampleCollaborators [10, 20] 1 sampleWorld).1
          ≠ Outcome.assertionFailure :=
  ⟨by decide, by decide,
    (C10_arity_check_first debugBuildOddImage sampleCollaborators [10, 20] 1 sampleWorld
      (by decide)).1,
    (C10_arity_check_first debugBuildOddImage sampleCollaborators [10, 20] 1 sampleWorld
      (by decide)).2.1⟩

end kp
